import Mathlib

/-!
Verification of the mortgage-platform status state machine and its handlers.

Shallow embedding of the TypeScript sources:
* `packages/api/src/utils/validators.ts` — `STATUS_TRANSITIONS`, `validateStatusTransition`
* `packages/shared` (`types.ts` / `index.ts`) — `VALID_STATUS_TRANSITIONS`, `isValidStatusTransition`
* `packages/api/src/services/dynamoService.ts` — `updateApplicationStatus`, `getApplication`
* `packages/api/src/handlers/applications/updateStatus.ts` — the status-update handler
* `packages/api/src/handlers/webhooks/statusChangeWebhook.ts` — the webhook handler
* `packages/api/src/handlers/processor` — `performPreValidation`, `performCreditCheck`, `processRecord`
* `packages/api/src/utils/auth.ts` — `extractUser`, `hasElevatedRole`

Modelling conventions: ISO-8601 timestamps are modelled as `Nat` clock ticks
(the code only constructs and compares them); TypeScript numbers on application
records are modelled as `Rat`; DynamoDB conditional-write failures and thrown
exceptions are modelled with `Except`; a JavaScript `TypeError` arising from
calling a method on `undefined` is modelled as `Option.none`.
-/

namespace Mortgage

/-- The seven application statuses (`ApplicationStatus` enum in `types`). -/
inductive ApplicationStatus
  | DRAFT
  | SUBMITTED
  | UNDER_REVIEW
  | DOCUMENTS_REQUESTED
  | APPROVED
  | DENIED
  | WITHDRAWN
deriving DecidableEq, BEq, Repr, Fintype

open ApplicationStatus

/-- The string value of each enum member in the source. -/
def statusToString : ApplicationStatus → String
  | DRAFT => "DRAFT"
  | SUBMITTED => "SUBMITTED"
  | UNDER_REVIEW => "UNDER_REVIEW"
  | DOCUMENTS_REQUESTED => "DOCUMENTS_REQUESTED"
  | APPROVED => "APPROVED"
  | DENIED => "DENIED"
  | WITHDRAWN => "WITHDRAWN"

/-- `STATUS_TRANSITIONS` of the API package (`utils/validators.ts`). -/
def STATUS_TRANSITIONS : ApplicationStatus → List ApplicationStatus
  | DRAFT => [SUBMITTED, WITHDRAWN]
  | SUBMITTED => [UNDER_REVIEW, DOCUMENTS_REQUESTED, WITHDRAWN]
  | UNDER_REVIEW => [DOCUMENTS_REQUESTED, APPROVED, DENIED]
  | DOCUMENTS_REQUESTED => [UNDER_REVIEW, WITHDRAWN]
  | APPROVED => []
  | DENIED => []
  | WITHDRAWN => []

/-- `validateStatusTransition` of the API package (`utils/validators.ts`). -/
def validateStatusTransition (currentStatus newStatus : ApplicationStatus) : Bool :=
  (STATUS_TRANSITIONS currentStatus).contains newStatus

/-- `VALID_STATUS_TRANSITIONS` of the shared package (`types.ts`). -/
def VALID_STATUS_TRANSITIONS : ApplicationStatus → List ApplicationStatus
  | DRAFT => [SUBMITTED, WITHDRAWN]
  | SUBMITTED => [UNDER_REVIEW, WITHDRAWN]
  | UNDER_REVIEW => [DOCUMENTS_REQUESTED, APPROVED, DENIED]
  | DOCUMENTS_REQUESTED => [SUBMITTED, WITHDRAWN]
  | APPROVED => [WITHDRAWN]
  | DENIED => []
  | WITHDRAWN => []

/-- `isValidStatusTransition` of the shared package (`index.ts`). -/
def isValidStatusTransition (currentStatus newStatus : ApplicationStatus) : Bool :=
  (VALID_STATUS_TRANSITIONS currentStatus).contains newStatus

/-!
Raw (string-keyed) view of the two validators.  In the running JavaScript the
transition tables are objects keyed by the status strings; indexing with a key
outside the table yields `undefined`, and the subsequent `.includes` call then
throws a `TypeError`.  The raw functions below model that calling convention:
result `none` is the thrown `TypeError`, `some b` is a normal boolean return.
-/

/-- The API package's `STATUS_TRANSITIONS` object as the key/value pairs it holds. -/
def STATUS_TRANSITIONS_RAW : List (String × List String) :=
  [ ("DRAFT", ["SUBMITTED", "WITHDRAWN"]),
    ("SUBMITTED", ["UNDER_REVIEW", "DOCUMENTS_REQUESTED", "WITHDRAWN"]),
    ("UNDER_REVIEW", ["DOCUMENTS_REQUESTED", "APPROVED", "DENIED"]),
    ("DOCUMENTS_REQUESTED", ["UNDER_REVIEW", "WITHDRAWN"]),
    ("APPROVED", []),
    ("DENIED", []),
    ("WITHDRAWN", []) ]

/-- `validateStatusTransition` on raw string inputs: property lookup followed by
`.includes`; a missing key makes the `.includes` call throw (`none`). -/
def validateStatusTransitionRaw (currentStatus newStatus : String) : Option Bool :=
  match STATUS_TRANSITIONS_RAW.find? (fun p => p.1 == currentStatus) with
  | none => none
  | some p => some (p.2.contains newStatus)

/-- The shared package's `VALID_STATUS_TRANSITIONS` object as raw key/value pairs. -/
def VALID_STATUS_TRANSITIONS_RAW : List (String × List String) :=
  [ ("DRAFT", ["SUBMITTED", "WITHDRAWN"]),
    ("SUBMITTED", ["UNDER_REVIEW", "WITHDRAWN"]),
    ("UNDER_REVIEW", ["DOCUMENTS_REQUESTED", "APPROVED", "DENIED"]),
    ("DOCUMENTS_REQUESTED", ["SUBMITTED", "WITHDRAWN"]),
    ("APPROVED", ["WITHDRAWN"]),
    ("DENIED", []),
    ("WITHDRAWN", []) ]

/-- `isValidStatusTransition` on raw string inputs, same convention. -/
def isValidStatusTransitionRaw (currentStatus newStatus : String) : Option Bool :=
  match VALID_STATUS_TRANSITIONS_RAW.find? (fun p => p.1 == currentStatus) with
  | none => none
  | some p => some (p.2.contains newStatus)

/-! ## Data model (`types`), store (`dynamoService.ts`) and handlers -/

/-- `BorrowerInfo` (`types`); TypeScript numbers modelled as `Rat`. -/
structure BorrowerInfo where
  firstName : String
  lastName : String
  email : String
  phone : String
  ssnLast4 : String
  annualIncome : Rat
  employmentStatus : String
  employer : String
deriving DecidableEq, Repr

/-- `PropertyInfo` (`types`). -/
structure PropertyInfo where
  address : String
  type : String
  estimatedValue : Rat
  loanAmount : Rat
  loanType : String
  downPaymentPercentage : Rat
deriving DecidableEq, Repr

/-- `MortgageApplication` (`types`); ISO timestamps modelled as `Nat` ticks. -/
structure MortgageApplication where
  applicationId : String
  userId : String
  status : ApplicationStatus
  borrowerInfo : BorrowerInfo
  propertyInfo : PropertyInfo
  createdAt : Nat
  updatedAt : Nat
  notes : Option String
deriving DecidableEq, Repr

/-- `StatusHistoryRecord` (`dynamoService.ts`): one history item, keyed in the
table by the application id (PK) and the timestamp (SK). -/
structure StatusHistoryRecord where
  applicationId : String
  previousStatus : ApplicationStatus
  newStatus : ApplicationStatus
  timestamp : Nat
  notes : Option String
deriving DecidableEq, Repr

/-- The DynamoDB table contents relevant to the handlers: the METADATA records
and the STATUS# history records. -/
structure Store where
  apps : List MortgageApplication
  history : List StatusHistoryRecord
deriving DecidableEq, Repr

/-- `getApplication` (`dynamoService.ts`): GetCommand on (APP#id, METADATA). -/
def getApplication (s : Store) (applicationId : String) : Option MortgageApplication :=
  s.apps.find? (fun a => a.applicationId == applicationId)

/-- UpdateExpression `notes = :notes` is only added when notes !== undefined;
otherwise the stored notes are untouched. -/
def mergeNotes (notes old : Option String) : Option String :=
  match notes with
  | some n => some n
  | none => old

/-- `updateApplicationStatus` (`dynamoService.ts`): an UpdateCommand on the
METADATA record guarded by the ConditionExpression `#status = :prevStatus`, then
an unconditional PutCommand of one history record.  A failed condition (status
mismatch, or missing item) raises `ConditionalCheckFailedException`, modelled as
`Except.error`; on success the updated record (ReturnValues ALL_NEW) is returned
together with the new store contents. -/
def updateApplicationStatus (s : Store) (now : Nat) (applicationId : String)
    (previousStatus newStatus : ApplicationStatus) (notes : Option String) :
    Except String (Store × MortgageApplication) :=
  match getApplication s applicationId with
  | none => .error "ConditionalCheckFailedException"
  | some app =>
    if app.status = previousStatus then
      let app2 : MortgageApplication :=
        { app with
          status := newStatus
          updatedAt := now
          notes := mergeNotes notes app.notes }
      let entry : StatusHistoryRecord :=
        ⟨applicationId, previousStatus, newStatus, now, notes⟩
      .ok
        ({ apps := s.apps.map (fun a => if a.applicationId == applicationId then app2 else a),
           history := s.history ++ [entry] },
         app2)
    else
      .error "ConditionalCheckFailedException"

/-- `UserRole` (`utils/auth.ts`). -/
inductive UserRole
  | borrower
  | loan_officer
  | admin
deriving DecidableEq, BEq, Repr

/-- `AuthenticatedUser` (`utils/auth.ts`). -/
structure AuthenticatedUser where
  userId : String
  email : String
  role : UserRole
deriving DecidableEq, Repr

/-- `hasElevatedRole` (`utils/auth.ts`). -/
def hasElevatedRole (user : AuthenticatedUser) : Bool :=
  user.role == UserRole.admin || user.role == UserRole.loan_officer

/-- The parsed body of a status-update request (`updateStatusBodySchema`). -/
structure UpdateStatusBody where
  status : ApplicationStatus
  notes : Option String
deriving DecidableEq, Repr

/-- An API Gateway response as produced through `success`/`error`
(`utils/response.ts`): either `success(app)` or `error(message, code)`. -/
inductive HandlerResponse
  | ok (app : MortgageApplication)
  | err (message : String) (statusCode : Nat)
deriving DecidableEq, Repr

/-- One `publishStatusChange` call (`eventBridgeService.ts`). -/
structure PublishedEvent where
  applicationId : String
  previousStatus : ApplicationStatus
  newStatus : ApplicationStatus
  userId : String
  timestamp : Nat
deriving DecidableEq, Repr

/-- Everything observable from one handler invocation: the HTTP response, the
store after the invocation, the conditional-write attempts issued (application
id, expected current status, requested status), and the events published. -/
structure HandlerOutcome where
  resp : HandlerResponse
  store : Store
  attempts : List (String × ApplicationStatus × ApplicationStatus)
  events : List PublishedEvent
deriving DecidableEq, Repr

/-- The status-update handler (`handlers/applications/updateStatus.ts`).
Inputs are the already-extracted user (`extractUser` result), the path
parameter, and the parsed body (`none` models a zod validation failure).
`sRead` is the store state answering the handler's `getApplication` read;
`sWrite` is the store state at the moment of the conditional write — a
concurrent writer may have changed it in between.  A thrown
`ConditionalCheckFailedException` reaches the handler's catch-all, which
returns the generic 500 response. -/
def updateStatusHandler (user : Option AuthenticatedUser) (applicationId : Option String)
    (body : Option UpdateStatusBody) (sRead sWrite : Store) (now : Nat) : HandlerOutcome :=
  match user with
  | none => ⟨.err "Unauthorized" 401, sWrite, [], []⟩
  | some u =>
    match applicationId with
    | none => ⟨.err "applicationId is required" 400, sWrite, [], []⟩
    | some id =>
      if id = "" then ⟨.err "applicationId is required" 400, sWrite, [], []⟩
      else
        match body with
        | none => ⟨.err "Validation failed" 400, sWrite, [], []⟩
        | some b =>
          match getApplication sRead id with
          | none => ⟨.err "Application not found" 404, sWrite, [], []⟩
          | some application =>
            let canUpdate := (application.userId == u.userId) || hasElevatedRole u
            if canUpdate then
              let previousStatus := application.status
              if validateStatusTransition previousStatus b.status then
                match updateApplicationStatus sWrite now id previousStatus b.status b.notes with
                | .error _ =>
                  ⟨.err "Internal server error" 500, sWrite, [(id, previousStatus, b.status)], []⟩
                | .ok (s2, updated) =>
                  ⟨.ok updated, s2, [(id, previousStatus, b.status)],
                   [⟨id, previousStatus, b.status, application.userId, now⟩]⟩
              else
                ⟨.err ("Invalid status transition from " ++ statusToString previousStatus ++
                       " to " ++ statusToString b.status) 400, sWrite, [], []⟩
            else
              ⟨.err "Access denied" 403, sWrite, [], []⟩

/-! ## Webhook handler (`handlers/webhooks/statusChangeWebhook.ts`) -/

/-- `EXTERNAL_STATUS_MAP` of the webhook handler. -/
def EXTERNAL_STATUS_MAP : List (String × ApplicationStatus) :=
  [ ("pending_review", ApplicationStatus.UNDER_REVIEW),
    ("documents_needed", ApplicationStatus.DOCUMENTS_REQUESTED),
    ("approved", ApplicationStatus.APPROVED),
    ("rejected", ApplicationStatus.DENIED),
    ("cancelled", ApplicationStatus.WITHDRAWN) ]

/-- `mapExternalStatus`: `EXTERNAL_STATUS_MAP[externalStatus] ?? null`. -/
def mapExternalStatus (externalStatus : String) : Option ApplicationStatus :=
  (EXTERNAL_STATUS_MAP.find? (fun p => p.1 == externalStatus)).map (fun p => p.2)

/-- The webhook handler's response: `success({received: true})` or an error. -/
inductive WebhookResponse
  | received
  | err (message : String) (statusCode : Nat)
deriving DecidableEq, Repr

/-- Observables of one webhook invocation. -/
structure WebhookOutcome where
  resp : WebhookResponse
  store : Store
  attempts : List (String × ApplicationStatus × ApplicationStatus)
deriving DecidableEq, Repr

/-- The status-change webhook handler, after its signature check and body
schema validation have passed (they touch no application state).  It maps the
external status and calls `updateApplicationStatus` directly — with no
`validateStatusTransition` check.  `sRead`/`sWrite` as in
`updateStatusHandler`. -/
def statusChangeWebhook (applicationId externalStatus provider : String)
    (sRead sWrite : Store) (now : Nat) : WebhookOutcome :=
  match mapExternalStatus externalStatus with
  | none => ⟨.err ("Unknown external status: " ++ externalStatus) 400, sWrite, []⟩
  | some mappedStatus =>
    match getApplication sRead applicationId with
    | none => ⟨.err "Application not found" 404, sWrite, []⟩
    | some application =>
      let previousStatus := application.status
      match updateApplicationStatus sWrite now applicationId previousStatus mappedStatus
          (some ("Updated via webhook from " ++ provider)) with
      | .error _ =>
        ⟨.err "Internal server error" 500, sWrite, [(applicationId, previousStatus, mappedStatus)]⟩
      | .ok (s2, _) =>
        ⟨.received, s2, [(applicationId, previousStatus, mappedStatus)]⟩

/-! ## Asynchronous processor (`handlers/processor/applicationProcessor.ts`) -/

/-- `StatusChangeEvent` as carried in the queued message detail. -/
structure StatusChangeEvent where
  applicationId : String
  previousStatus : ApplicationStatus
  newStatus : ApplicationStatus
  userId : String
  timestamp : Nat
deriving DecidableEq, Repr

/-- The `checks` object of `PreValidationResult`. -/
structure PreValidationChecks where
  incomePositive : Bool
  loanAmountPositive : Bool
  downPaymentValid : Bool
  borrowerInfoComplete : Bool
deriving DecidableEq, Repr

/-- `PreValidationResult`. -/
structure PreValidationResult where
  passed : Bool
  checks : PreValidationChecks
deriving DecidableEq, Repr

/-- `performPreValidation`: the four checks, `passed` their conjunction. -/
def performPreValidation (application : MortgageApplication) : PreValidationResult :=
  let checks : PreValidationChecks :=
    { incomePositive := decide (0 < application.borrowerInfo.annualIncome)
      loanAmountPositive := decide (0 < application.propertyInfo.loanAmount)
      downPaymentValid := decide (0 ≤ application.propertyInfo.downPaymentPercentage) &&
        decide (application.propertyInfo.downPaymentPercentage ≤ 100)
      borrowerInfoComplete := decide (0 < application.borrowerInfo.firstName.length) &&
        decide (0 < application.borrowerInfo.lastName.length) &&
        decide (0 < application.borrowerInfo.email.length) }
  { passed := checks.incomePositive && checks.loanAmountPositive &&
      checks.downPaymentValid && checks.borrowerInfoComplete
    checks := checks }

/-- `CreditCheckResult`. -/
structure CreditCheckResult where
  score : Nat
  rating : String
deriving DecidableEq, Repr

/-- `performCreditCheck`: `Math.floor(Math.random() * 251) + 600` with the
random draw modelled as the `rand` input, then the rating thresholds. -/
def performCreditCheck (rand : Nat) : CreditCheckResult :=
  let score := rand % 251 + 600
  let rating :=
    if 750 ≤ score then "excellent"
    else if 700 ≤ score then "good"
    else if 650 ≤ score then "fair"
    else "poor"
  ⟨score, rating⟩

/-- The structured log lines `processRecord` emits. -/
inductive LogEntry
  | processing (correlationId : String) (previousStatus newStatus : ApplicationStatus)
  | preValidation (correlationId : String) (result : PreValidationResult)
  | creditCheck (correlationId : String) (score : Nat) (rating : String)
  | approvedReady (correlationId : String) (userId : String)
  | noProcessing (correlationId : String) (status : ApplicationStatus)
deriving DecidableEq, Repr

/-- `processRecord`: dispatch on the event's new status.  `lookup` is the
`getApplication` result for the event's application id; a missing application
raises (the handler's batch loop later catches and re-throws).  `rand` feeds
`performCreditCheck`.  Returns the log lines of a normal completion. -/
def processRecord (rand : Nat) (event : StatusChangeEvent)
    (lookup : Option MortgageApplication) : Except String (List LogEntry) :=
  let correlationId := event.applicationId
  let head : LogEntry := .processing correlationId event.previousStatus event.newStatus
  match lookup with
  | none => .error ("Application " ++ event.applicationId ++ " not found")
  | some application =>
    match event.newStatus with
    | ApplicationStatus.SUBMITTED =>
      .ok [head, .preValidation correlationId (performPreValidation application)]
    | ApplicationStatus.UNDER_REVIEW =>
      let creditResult := performCreditCheck rand
      .ok [head, .creditCheck correlationId creditResult.score creditResult.rating]
    | ApplicationStatus.APPROVED =>
      .ok [head, .approvedReady correlationId event.userId]
    | other =>
      .ok [head, .noProcessing correlationId other]

/-! ## Claim extraction (`utils/auth.ts`) -/

/-- The `cognito:groups` claim value: an array, a string, or anything else
(absent or a non-string type), which the code turns into the empty string. -/
inductive GroupsClaim
  | arr (groups : List String)
  | str (s : String)
  | missing
deriving DecidableEq, Repr

/-- The claims the handler reads.  How the claims object is obtained (Cognito
authorizer, or the local-development mock token) is abstracted into the
`Option Claims` input of `extractUser`. -/
structure Claims where
  sub : Option String
  email : Option String
  groups : GroupsClaim
deriving DecidableEq, Repr

/-- Whether `pattern` is a leading segment of `chars` (char-by-char). -/
def leadsWith : List Char → List Char → Bool
  | [], _ => true
  | _ :: _, [] => false
  | p :: ps, c :: cs => p == c && leadsWith ps cs

/-- Whether `pattern` occurs contiguously inside `chars`. -/
def occursIn (pattern : List Char) : List Char → Bool
  | [] => pattern.isEmpty
  | c :: cs => leadsWith pattern (c :: cs) || occursIn pattern cs

/-- JavaScript `s.includes(pattern)`. -/
def strHas (s pattern : String) : Bool :=
  occursIn pattern.toList s.toList

/-- JavaScript `s.toLowerCase()` (ASCII): `Char.toLower` over the characters.
(The library `String.toLower` computes the same string but by well-founded
recursion, which blocks kernel evaluation.) -/
def lowerString (s : String) : String :=
  ⟨s.data.map Char.toLower⟩

/-- The `groupsStr` computation: join an array with ",", keep a string, and
anything else becomes "". -/
def groupsToString : GroupsClaim → String
  | .arr groups => String.intercalate "," groups
  | .str s => s
  | .missing => ""

/-- `extractUser` (`utils/auth.ts`) from the claims object onward: read `sub`,
default `email` to "", derive the role by substring tests on the lowercased
groups string, and return null when `sub` is missing or empty. -/
def extractUser (claims : Option Claims) : Option AuthenticatedUser :=
  match claims with
  | none => none
  | some c =>
    let userId := c.sub
    let email := c.email.getD ""
    let groupsStr := groupsToString c.groups
    let role : UserRole :=
      if strHas (lowerString groupsStr) "admin" then .admin
      else if strHas (lowerString groupsStr) "loanofficer" ||
          strHas (lowerString groupsStr) "loan_officer" then
        .loan_officer
      else .borrower
    match userId with
    | none => none
    | some uid => if uid = "" then none else some ⟨uid, email, role⟩

/-! ## Concrete sample data for witnesses and counterexamples -/

/-- A borrower record with routine values. -/
def sampleBorrower : BorrowerInfo :=
  ⟨"Ann", "Lee", "ann@example.com", "5550100", "1234", 90000, "Employed", "ACME"⟩

/-- A property record with routine values. -/
def sampleProperty : PropertyInfo :=
  ⟨"1 Main St", "Condo", 300000, 240000, "FHA", 20⟩

/-- An application `a1` of user `u1` sitting in the given status. -/
def appAt (st : ApplicationStatus) : MortgageApplication :=
  ⟨"a1", "u1", st, sampleBorrower, sampleProperty, 0, 1, none⟩

/-- A store holding exactly the application `appAt st` and no history. -/
def storeAt (st : ApplicationStatus) : Store := ⟨[appAt st], []⟩

/-- User `u1`, a plain borrower (no elevated role). -/
def borrowerUser : AuthenticatedUser := ⟨"u1", "ann@example.com", .borrower⟩

/-- An application in SUBMITTED whose borrower reports a negative income. -/
def negativeIncomeApp : MortgageApplication :=
  { appAt ApplicationStatus.SUBMITTED with
    borrowerInfo := { sampleBorrower with annualIncome := -5 } }

end Mortgage

namespace Mortgage

open ApplicationStatus

/-- Auxiliary: a string has positive length exactly when it is non-empty. -/
theorem length_pos_iff_ne_empty (s : String) : 0 < s.length ↔ s ≠ "" := by
  cases s with
  | mk data =>
    cases data with
    | nil => simp [String.length]
    | cons c cs =>
      simp only [String.length]
      constructor
      · intro _ h
        have h2 : (String.mk (c :: cs)).data = (String.mk []).data := by rw [h]
        simp at h2
      · intro _
        simp [List.length]

/-- C1: `validateStatusTransition(from, to)` returns true exactly on the rows of
the canonical table — DRAFT→{SUBMITTED,WITHDRAWN}, SUBMITTED→{UNDER_REVIEW,
DOCUMENTS_REQUESTED,WITHDRAWN}, UNDER_REVIEW→{DOCUMENTS_REQUESTED,APPROVED,
DENIED}, DOCUMENTS_REQUESTED→{UNDER_REVIEW,WITHDRAWN} — and false on every other
pair, including `to = from` and every pair whose source is APPROVED, DENIED or
WITHDRAWN. -/
theorem validateStatusTransition_canonical :
    (∀ f t : ApplicationStatus,
      validateStatusTransition f t = true ↔
        ((f = DRAFT ∧ (t = SUBMITTED ∨ t = WITHDRAWN)) ∨
         (f = SUBMITTED ∧ (t = UNDER_REVIEW ∨ t = DOCUMENTS_REQUESTED ∨ t = WITHDRAWN)) ∨
         (f = UNDER_REVIEW ∧ (t = DOCUMENTS_REQUESTED ∨ t = APPROVED ∨ t = DENIED)) ∨
         (f = DOCUMENTS_REQUESTED ∧ (t = UNDER_REVIEW ∨ t = WITHDRAWN)))) ∧
    (∀ s : ApplicationStatus, validateStatusTransition s s = false) ∧
    (∀ t : ApplicationStatus,
      validateStatusTransition APPROVED t = false ∧
      validateStatusTransition DENIED t = false ∧
      validateStatusTransition WITHDRAWN t = false) := by
  refine ⟨?_, ?_, ?_⟩ <;> decide

/-- C6 counterexample: the two validators disagree — the API validator allows
SUBMITTED→DOCUMENTS_REQUESTED while the shared validator rejects it, so they do
not compute the same boolean function. -/
theorem validators_disagree_cex :
    validateStatusTransition SUBMITTED DOCUMENTS_REQUESTED = true ∧
    isValidStatusTransition SUBMITTED DOCUMENTS_REQUESTED = false := by
  decide

/-- C6 (amended): the two validators agree on a pair of statuses exactly when the
pair is outside the four divergent pairs — SUBMITTED→DOCUMENTS_REQUESTED and
DOCUMENTS_REQUESTED→UNDER_REVIEW (allowed only by the API validator), and
DOCUMENTS_REQUESTED→SUBMITTED and APPROVED→WITHDRAWN (allowed only by the shared
validator); the source therefore defines two distinct state machines. -/
theorem validators_agree_iff_not_divergent_pair :
    ∀ f t : ApplicationStatus,
      (validateStatusTransition f t = isValidStatusTransition f t) ↔
        ¬ ((f = SUBMITTED ∧ t = DOCUMENTS_REQUESTED) ∨
           (f = DOCUMENTS_REQUESTED ∧ t = UNDER_REVIEW) ∨
           (f = DOCUMENTS_REQUESTED ∧ t = SUBMITTED) ∨
           (f = APPROVED ∧ t = WITHDRAWN)) := by
  decide

/-- C7 counterexample: with a current-status value outside the seven known
statuses the validator does not return false — the table lookup yields
`undefined` and the `.includes` call throws (modelled as `none`). -/
theorem unknown_status_throws_cex :
    validateStatusTransitionRaw "PENDING" "SUBMITTED" = none ∧
    validateStatusTransitionRaw "PENDING" "SUBMITTED" ≠ some false := by
  exact ⟨rfl, by decide⟩

/-- C7 (amended): on the seven known status strings both validators return a
boolean, the one computed by the typed transition tables; but a current-status
value with no table entry makes the call fail with a `TypeError` (the lookup
yields `undefined` and `.includes` is invoked on it), not return false. -/
theorem raw_validator_total_on_known_none_on_unknown :
    (∀ c n : ApplicationStatus,
      validateStatusTransitionRaw (statusToString c) (statusToString n) =
        some (validateStatusTransition c n)) ∧
    (∀ c n : ApplicationStatus,
      isValidStatusTransitionRaw (statusToString c) (statusToString n) =
        some (isValidStatusTransition c n)) ∧
    (∀ c n : String,
      STATUS_TRANSITIONS_RAW.find? (fun p => p.1 == c) = none →
      validateStatusTransitionRaw c n = none) ∧
    (∀ c n : String,
      VALID_STATUS_TRANSITIONS_RAW.find? (fun p => p.1 == c) = none →
      isValidStatusTransitionRaw c n = none) := by
  refine ⟨by decide, by decide, ?_, ?_⟩
  · intro c n h
    simp [validateStatusTransitionRaw, h]
  · intro c n h
    simp [isValidStatusTransitionRaw, h]

/-- C7 witness: the amended theorem applied at the unknown status "BOGUS". -/
theorem raw_validator_witness :
    validateStatusTransitionRaw "BOGUS" "SUBMITTED" = none :=
  raw_validator_total_on_known_none_on_unknown.2.2.1 "BOGUS" "SUBMITTED" (by decide)

/-- C4: a status-update request that reaches the transition check with a pair
outside the table is answered with a 400 error naming both the current and the
requested status, and the handler issues no conditional write, appends no
history, publishes no event, and leaves the store unchanged. -/
theorem invalid_transition_rejected_without_effects
    (u : AuthenticatedUser) (id : String) (b : UpdateStatusBody)
    (sRead sWrite : Store) (now : Nat) (application : MortgageApplication)
    (hid : id ≠ "")
    (happ : getApplication sRead id = some application)
    (hauth : ((application.userId == u.userId) || hasElevatedRole u) = true)
    (hinv : validateStatusTransition application.status b.status = false) :
    updateStatusHandler (some u) (some id) (some b) sRead sWrite now =
      ⟨.err ("Invalid status transition from " ++ statusToString application.status ++
             " to " ++ statusToString b.status) 400, sWrite, [], []⟩ := by
  simp [updateStatusHandler, hid, happ, hauth, hinv]

/-- C4 witness: the theorem at an APPROVED application whose owner requests
SUBMITTED. -/
theorem invalid_transition_rejected_witness :
    updateStatusHandler (some borrowerUser) (some "a1")
        (some ⟨SUBMITTED, none⟩) (storeAt APPROVED) (storeAt APPROVED) 5 =
      ⟨.err ("Invalid status transition from " ++ statusToString (appAt APPROVED).status ++
             " to " ++ statusToString SUBMITTED) 400, storeAt APPROVED, [], []⟩ :=
  invalid_transition_rejected_without_effects borrowerUser "a1" ⟨SUBMITTED, none⟩
    (storeAt APPROVED) (storeAt APPROVED) 5 (appAt APPROVED)
    (by decide) (by decide) (by decide) (by decide)

/-- C5 counterexample: an application in UNDER_REVIEW whose owning borrower
(no elevated role) requests DENIED is not answered with a Forbidden error —
the update succeeds, because the handler authorizes any owner. -/
theorem owner_borrower_can_deny_cex :
    (updateStatusHandler (some borrowerUser) (some "a1") (some ⟨DENIED, none⟩)
        (storeAt UNDER_REVIEW) (storeAt UNDER_REVIEW) 5).resp =
      .ok { appAt UNDER_REVIEW with status := DENIED, updatedAt := 5 } ∧
    (updateStatusHandler (some borrowerUser) (some "a1") (some ⟨DENIED, none⟩)
        (storeAt UNDER_REVIEW) (storeAt UNDER_REVIEW) 5).resp ≠
      .err "Access denied" 403 := by
  decide

/-- C5 (amended): the owning borrower, elevated or not, may perform any
table-valid transition: with an application in UNDER_REVIEW and the owner (a
plain borrower) requesting DENIED, the update succeeds — the history entry is
appended and the event published; Forbidden is reserved for callers that are
neither owner nor elevated. -/
theorem owner_borrower_deny_succeeds
    (u : AuthenticatedUser) (id : String) (notes : Option String)
    (s : Store) (now : Nat) (application : MortgageApplication)
    (hrole : u.role = UserRole.borrower)
    (hid : id ≠ "")
    (happ : getApplication s id = some application)
    (howner : application.userId = u.userId)
    (hst : application.status = UNDER_REVIEW) :
    updateStatusHandler (some u) (some id) (some ⟨DENIED, notes⟩) s s now =
      ⟨.ok { application with
             status := DENIED
             updatedAt := now
             notes := mergeNotes notes application.notes },
       { apps := s.apps.map (fun a =>
           if a.applicationId == id then
             { application with
               status := DENIED
               updatedAt := now
               notes := mergeNotes notes application.notes }
           else a),
         history := s.history ++ [⟨id, UNDER_REVIEW, DENIED, now, notes⟩] },
       [(id, UNDER_REVIEW, DENIED)],
       [⟨id, UNDER_REVIEW, DENIED, application.userId, now⟩]⟩ := by
  have hbeq : (application.userId == u.userId) = true := by simp [howner]
  have hv : validateStatusTransition UNDER_REVIEW DENIED = true := by decide
  simp [updateStatusHandler, hid, happ, hbeq, hst, hv, updateApplicationStatus]

/-- C5 witness: the amended theorem at the concrete UNDER_REVIEW store. -/
theorem owner_borrower_deny_succeeds_witness :
    updateStatusHandler (some borrowerUser) (some "a1") (some ⟨DENIED, none⟩)
        (storeAt UNDER_REVIEW) (storeAt UNDER_REVIEW) 9 =
      ⟨.ok { appAt UNDER_REVIEW with
             status := DENIED
             updatedAt := 9
             notes := mergeNotes none (appAt UNDER_REVIEW).notes },
       { apps := (storeAt UNDER_REVIEW).apps.map (fun a =>
           if a.applicationId == "a1" then
             { appAt UNDER_REVIEW with
               status := DENIED
               updatedAt := 9
               notes := mergeNotes none (appAt UNDER_REVIEW).notes }
           else a),
         history := (storeAt UNDER_REVIEW).history ++ [⟨"a1", UNDER_REVIEW, DENIED, 9, none⟩] },
       [("a1", UNDER_REVIEW, DENIED)],
       [⟨"a1", UNDER_REVIEW, DENIED, (appAt UNDER_REVIEW).userId, 9⟩]⟩ :=
  owner_borrower_deny_succeeds borrowerUser "a1" none (storeAt UNDER_REVIEW) 9
    (appAt UNDER_REVIEW) (by decide) (by decide) (by decide) (by decide) (by decide)

/-- C3 counterexample: when a concurrent writer wins the race (the read saw
SUBMITTED, the store holds UNDER_REVIEW at write time), the handler does not
return a distinct Conflict outcome — its catch-all returns the same generic
`Internal server error` 500 response it uses for every unexpected failure. -/
theorem conflict_surfaces_as_internal_error_cex :
    updateStatusHandler (some borrowerUser) (some "a1") (some ⟨UNDER_REVIEW, none⟩)
        (storeAt SUBMITTED) (storeAt UNDER_REVIEW) 7 =
      ⟨.err "Internal server error" 500, storeAt UNDER_REVIEW,
       [("a1", SUBMITTED, UNDER_REVIEW)], []⟩ := by
  decide

/-- C3 (amended): when the conditional write's guard fails because the stored
status no longer equals the previously read status, the thrown
`ConditionalCheckFailedException` reaches the handler's catch-all and is
answered with the generic `Internal server error` 500 — not a distinct Conflict
outcome; exactly one conditional write is attempted (no automatic retry), the
store is left as the concurrent writer left it, and no event is published. -/
theorem conflict_returns_generic_internal_error
    (u : AuthenticatedUser) (id : String) (b : UpdateStatusBody)
    (sRead sWrite : Store) (now : Nat) (appR appW : MortgageApplication)
    (hid : id ≠ "")
    (hR : getApplication sRead id = some appR)
    (hauth : ((appR.userId == u.userId) || hasElevatedRole u) = true)
    (hvalid : validateStatusTransition appR.status b.status = true)
    (hW : getApplication sWrite id = some appW)
    (hrace : appW.status ≠ appR.status) :
    updateStatusHandler (some u) (some id) (some b) sRead sWrite now =
      ⟨.err "Internal server error" 500, sWrite, [(id, appR.status, b.status)], []⟩ := by
  simp [updateStatusHandler, hid, hR, hauth, hvalid, updateApplicationStatus, hW, hrace]

/-- C3 witness: the amended theorem at the concrete lost race. -/
theorem conflict_returns_generic_internal_error_witness :
    updateStatusHandler (some borrowerUser) (some "a1") (some ⟨UNDER_REVIEW, none⟩)
        (storeAt SUBMITTED) (storeAt DOCUMENTS_REQUESTED) 7 =
      ⟨.err "Internal server error" 500, storeAt DOCUMENTS_REQUESTED,
       [("a1", (appAt SUBMITTED).status, UNDER_REVIEW)], []⟩ :=
  conflict_returns_generic_internal_error borrowerUser "a1" ⟨UNDER_REVIEW, none⟩
    (storeAt SUBMITTED) (storeAt DOCUMENTS_REQUESTED) 7 (appAt SUBMITTED)
    (appAt DOCUMENTS_REQUESTED)
    (by decide) (by decide) (by decide) (by decide) (by decide) (by decide)

/-- C2: the webhook handler is a code path that mutates the stored status by a
step outside the transition table: for an application in APPROVED, a webhook
carrying external status `rejected` performs the write APPROVED→DENIED — a pair
both transition tables reject — reports success, and leaves the store holding
DENIED; the claimed invariant does not hold of the code. -/
theorem webhook_writes_illegal_transition :
    statusChangeWebhook "a1" "rejected" "acme" (storeAt APPROVED) (storeAt APPROVED) 5 =
      ⟨.received,
       ⟨[{ appAt APPROVED with
           status := DENIED
           updatedAt := 5
           notes := some "Updated via webhook from acme" }],
        [⟨"a1", APPROVED, DENIED, 5, some "Updated via webhook from acme"⟩]⟩,
       [("a1", APPROVED, DENIED)]⟩ ∧
    validateStatusTransition APPROVED DENIED = false ∧
    isValidStatusTransition APPROVED DENIED = false := by
  refine ⟨by decide, by decide, by decide⟩

/-- C8: a successful status update appends exactly one history entry, whose
previous/new statuses are the read current status and the requested status, and
sets `updatedAt` to the invocation time — strictly later than the stored
`updatedAt` whenever the clock has advanced past it. -/
theorem successful_update_appends_history_and_bumps_updatedAt
    (s : Store) (now : Nat) (id : String) (next : ApplicationStatus)
    (notes : Option String) (app : MortgageApplication)
    (happ : getApplication s id = some app)
    (hclock : app.updatedAt < now) :
    (updateApplicationStatus s now id app.status next notes =
      .ok ({ apps := s.apps.map (fun a =>
               if a.applicationId == id then
                 { app with
                   status := next
                   updatedAt := now
                   notes := mergeNotes notes app.notes }
               else a),
             history := s.history ++ [⟨id, app.status, next, now, notes⟩] },
           { app with
             status := next
             updatedAt := now
             notes := mergeNotes notes app.notes })) ∧
    (∀ s2 app2,
      updateApplicationStatus s now id app.status next notes = .ok (s2, app2) →
      s2.history = s.history ++ [⟨id, app.status, next, now, notes⟩] ∧
      app2.status = next ∧
      app.updatedAt < app2.updatedAt) := by
  have h1 : updateApplicationStatus s now id app.status next notes =
      .ok ({ apps := s.apps.map (fun a =>
               if a.applicationId == id then
                 { app with
                   status := next
                   updatedAt := now
                   notes := mergeNotes notes app.notes }
               else a),
             history := s.history ++ [⟨id, app.status, next, now, notes⟩] },
           { app with
             status := next
             updatedAt := now
             notes := mergeNotes notes app.notes }) := by
    simp [updateApplicationStatus, happ]
  refine ⟨h1, ?_⟩
  intro s2 app2 h
  rw [h1] at h
  simp only [Except.ok.injEq, Prod.mk.injEq] at h
  obtain ⟨h2, h3⟩ := h
  subst h2
  subst h3
  exact ⟨rfl, rfl, hclock⟩

/-- C8 witness: the theorem at a DRAFT application moved to SUBMITTED at time 5
(its stored `updatedAt` is 1). -/
theorem successful_update_witness :
    updateApplicationStatus (storeAt DRAFT) 5 "a1" (appAt DRAFT).status SUBMITTED none =
      .ok ({ apps := (storeAt DRAFT).apps.map (fun a =>
               if a.applicationId == "a1" then
                 { appAt DRAFT with
                   status := SUBMITTED
                   updatedAt := 5
                   notes := mergeNotes none (appAt DRAFT).notes }
               else a),
             history := (storeAt DRAFT).history ++
               [⟨"a1", (appAt DRAFT).status, SUBMITTED, 5, none⟩] },
           { appAt DRAFT with
             status := SUBMITTED
             updatedAt := 5
             notes := mergeNotes none (appAt DRAFT).notes }) :=
  (successful_update_appends_history_and_bumps_updatedAt (storeAt DRAFT) 5 "a1" SUBMITTED
    none (appAt DRAFT) (by decide) (by decide)).1

/-- C9: `performPreValidation` passes exactly when the income and loan amount
are positive, the down-payment percentage lies in [0,100], and the borrower's
first name, last name and email are non-empty; and for a SUBMITTED event whose
application has non-positive income, `processRecord` completes normally (no
exception), logging a pre-validation result with `passed = false` and
`incomePositive = false`. -/
theorem preValidation_characterization :
    (∀ app : MortgageApplication,
      (performPreValidation app).passed = true ↔
        (0 < app.borrowerInfo.annualIncome ∧ 0 < app.propertyInfo.loanAmount ∧
         0 ≤ app.propertyInfo.downPaymentPercentage ∧
         app.propertyInfo.downPaymentPercentage ≤ 100 ∧
         app.borrowerInfo.firstName ≠ "" ∧ app.borrowerInfo.lastName ≠ "" ∧
         app.borrowerInfo.email ≠ "")) ∧
    (∀ (rand : Nat) (event : StatusChangeEvent) (app : MortgageApplication),
      event.newStatus = SUBMITTED →
      app.borrowerInfo.annualIncome ≤ 0 →
      processRecord rand event (some app) =
        .ok [.processing event.applicationId event.previousStatus event.newStatus,
             .preValidation event.applicationId (performPreValidation app)] ∧
      (performPreValidation app).passed = false ∧
      (performPreValidation app).checks.incomePositive = false) := by
  constructor
  · intro app
    simp only [performPreValidation, Bool.and_eq_true, decide_eq_true_eq,
      length_pos_iff_ne_empty]
    tauto
  · intro rand event app hsub hinc
    have hfalse : decide (0 < app.borrowerInfo.annualIncome) = false :=
      decide_eq_false (not_lt.mpr hinc)
    refine ⟨?_, ?_, ?_⟩
    · simp [processRecord, hsub]
    · simp [performPreValidation, hfalse]
    · simp [performPreValidation, hfalse]

/-- C9 witness: the theorem's second part at a SUBMITTED event over an
application whose annual income is −5. -/
theorem preValidation_witness :
    processRecord 0 ⟨"a1", DRAFT, SUBMITTED, "u1", 3⟩ (some negativeIncomeApp) =
      .ok [.processing "a1" DRAFT SUBMITTED,
           .preValidation "a1" (performPreValidation negativeIncomeApp)] ∧
    (performPreValidation negativeIncomeApp).passed = false ∧
    (performPreValidation negativeIncomeApp).checks.incomePositive = false :=
  preValidation_characterization.2 0 ⟨"a1", DRAFT, SUBMITTED, "u1", 3⟩
    negativeIncomeApp rfl (by decide)

/-- C10: `extractUser` returns null exactly when no claims are available or the
`sub` claim is missing or empty; otherwise it returns the `sub` as user id, the
email claim (defaulted to ""), and the role derived from the joined, lowercased
groups claim by substring matching — `admin` if it contains "admin", else
`loan_officer` if it contains "loanofficer" or "loan_officer", else `borrower`
(so an absent groups claim always yields a borrower); and `hasElevatedRole`
holds exactly of the admin and loan-officer roles. -/
theorem extractUser_characterization :
    extractUser none = none ∧
    (∀ c : Claims, (c.sub = none ∨ c.sub = some "") → extractUser (some c) = none) ∧
    (∀ (c : Claims) (uid : String), c.sub = some uid → uid ≠ "" →
      extractUser (some c) =
        some ⟨uid, c.email.getD "",
          if strHas (lowerString (groupsToString c.groups)) "admin" then .admin
          else if strHas (lowerString (groupsToString c.groups)) "loanofficer" ||
              strHas (lowerString (groupsToString c.groups)) "loan_officer" then .loan_officer
          else .borrower⟩) ∧
    (∀ (c : Claims) (uid : String), c.sub = some uid → uid ≠ "" →
      c.groups = .missing → extractUser (some c) = some ⟨uid, c.email.getD "", .borrower⟩) ∧
    (∀ u : AuthenticatedUser,
      hasElevatedRole u = true ↔ (u.role = .admin ∨ u.role = .loan_officer)) := by
  refine ⟨rfl, ?_, ?_, ?_, ?_⟩
  · rintro c (h | h) <;> simp [extractUser, h]
  · intro c uid h hne
    simp [extractUser, h, hne]
  · intro c uid h hne hg
    have h1 : strHas (lowerString "") "admin" = false := rfl
    have h2 : strHas (lowerString "") "loanofficer" = false := rfl
    have h3 : strHas (lowerString "") "loan_officer" = false := rfl
    simp [extractUser, h, hne, hg, groupsToString, h1, h2, h3]
  · intro u
    cases hr : u.role <;> simp [hasElevatedRole, hr] <;> decide

/-- C10 witness: the theorem's role clause at claims whose single group
"Admins" contains "admin" after lowercasing. -/
theorem extractUser_witness :
    extractUser (some ⟨some "u9", some "zoe@example.com", .arr ["Admins"]⟩) =
      some ⟨"u9", "zoe@example.com", .admin⟩ := by
  have h := extractUser_characterization.2.2.1 ⟨some "u9", some "zoe@example.com",
    .arr ["Admins"]⟩ "u9" rfl (by decide)
  rw [h]
  decide

end Mortgage
